import Mathlib

/-!
Verification development for the Flask backend in `app.py`.

The embedding models the pieces of the program that the properties below
are about:

* a JSON value type and a parser modelling the Python `json.loads`
  (strict mode: no trailing text, no trailing commas, blank-only strings
  of whitespace skipped between tokens);
* the Gemini-backed helpers (`predict_disease_from_text`,
  `generate_followup_questions`) and the HTTP/page handlers, each
  parameterised by an oracle `Gemini : String → Except GenErr String`
  standing for `genai.GenerativeModel("gemini-2.0-flash").generate_content`:
  `Except.ok` is a successful call, `Except.error` an exception raised by
  the client library;
* the session-backed page flow (`/followup`, `/final_diagnosis`,
  `/treatment`) with the session as an explicit record;
* the clinics search (`/api/find_clinics`) over an environment of maps
  responses, instrumented with the number of nearby-search and
  place-details requests it performs;
* the Socket.IO signal relay (`on_signal`).

Python `dict` values coming from JSON bodies are modelled as association
lists in insertion order (duplicate keys resolved last-wins, as in
`json.loads`). Python string `strip` is modelled by `pyStrip` and
`split("\n")` by `pySplitNl`; JSON numbers are modelled by their
literal text (the program never does arithmetic on them).
-/

/-- A JSON value as produced by the Python `json.loads`: object members keep
insertion order, numbers are kept as their literal text (the backend never
computes with them, it only re-serialises them into prompts). -/
inductive Json where
  | null : Json
  | bool (b : Bool) : Json
  | num (lexeme : String) : Json
  | str (s : String) : Json
  | arr (elems : List Json) : Json
  | obj (members : List (String × Json)) : Json
  deriving Repr

mutual

/-- Decidable equality of JSON values (written by hand: the derive handler
does not cover this nested inductive). -/
def Json.decEq : (a b : Json) → Decidable (a = b)
  | .null, .null => isTrue rfl
  | .bool a, .bool b =>
    if h : a = b then isTrue (by rw [h]) else isFalse (fun hh => h (by injection hh))
  | .num a, .num b =>
    if h : a = b then isTrue (by rw [h]) else isFalse (fun hh => h (by injection hh))
  | .str a, .str b =>
    if h : a = b then isTrue (by rw [h]) else isFalse (fun hh => h (by injection hh))
  | .arr a, .arr b =>
    match Json.decEqList a b with
    | isTrue h => isTrue (by rw [h])
    | isFalse h => isFalse (fun hh => h (by injection hh))
  | .obj a, .obj b =>
    match Json.decEqMembers a b with
    | isTrue h => isTrue (by rw [h])
    | isFalse h => isFalse (fun hh => h (by injection hh))
  | .null, .bool _ => isFalse (fun h => Json.noConfusion h)
  | .null, .num _ => isFalse (fun h => Json.noConfusion h)
  | .null, .str _ => isFalse (fun h => Json.noConfusion h)
  | .null, .arr _ => isFalse (fun h => Json.noConfusion h)
  | .null, .obj _ => isFalse (fun h => Json.noConfusion h)
  | .bool _, .null => isFalse (fun h => Json.noConfusion h)
  | .bool _, .num _ => isFalse (fun h => Json.noConfusion h)
  | .bool _, .str _ => isFalse (fun h => Json.noConfusion h)
  | .bool _, .arr _ => isFalse (fun h => Json.noConfusion h)
  | .bool _, .obj _ => isFalse (fun h => Json.noConfusion h)
  | .num _, .null => isFalse (fun h => Json.noConfusion h)
  | .num _, .bool _ => isFalse (fun h => Json.noConfusion h)
  | .num _, .str _ => isFalse (fun h => Json.noConfusion h)
  | .num _, .arr _ => isFalse (fun h => Json.noConfusion h)
  | .num _, .obj _ => isFalse (fun h => Json.noConfusion h)
  | .str _, .null => isFalse (fun h => Json.noConfusion h)
  | .str _, .bool _ => isFalse (fun h => Json.noConfusion h)
  | .str _, .num _ => isFalse (fun h => Json.noConfusion h)
  | .str _, .arr _ => isFalse (fun h => Json.noConfusion h)
  | .str _, .obj _ => isFalse (fun h => Json.noConfusion h)
  | .arr _, .null => isFalse (fun h => Json.noConfusion h)
  | .arr _, .bool _ => isFalse (fun h => Json.noConfusion h)
  | .arr _, .num _ => isFalse (fun h => Json.noConfusion h)
  | .arr _, .str _ => isFalse (fun h => Json.noConfusion h)
  | .arr _, .obj _ => isFalse (fun h => Json.noConfusion h)
  | .obj _, .null => isFalse (fun h => Json.noConfusion h)
  | .obj _, .bool _ => isFalse (fun h => Json.noConfusion h)
  | .obj _, .num _ => isFalse (fun h => Json.noConfusion h)
  | .obj _, .str _ => isFalse (fun h => Json.noConfusion h)
  | .obj _, .arr _ => isFalse (fun h => Json.noConfusion h)

/-- Decidable equality of lists of JSON values. -/
def Json.decEqList : (a b : List Json) → Decidable (a = b)
  | [], [] => isTrue rfl
  | [], _ :: _ => isFalse (fun h => List.noConfusion h)
  | _ :: _, [] => isFalse (fun h => List.noConfusion h)
  | a :: as, b :: bs =>
    match Json.decEq a b with
    | isTrue h1 =>
      match Json.decEqList as bs with
      | isTrue h2 => isTrue (by rw [h1, h2])
      | isFalse h2 => isFalse (fun hh => h2 (by injection hh))
    | isFalse h1 => isFalse (fun hh => h1 (by injection hh))

/-- Decidable equality of JSON object member lists. -/
def Json.decEqMembers : (a b : List (String × Json)) → Decidable (a = b)
  | [], [] => isTrue rfl
  | [], _ :: _ => isFalse (fun h => List.noConfusion h)
  | _ :: _, [] => isFalse (fun h => List.noConfusion h)
  | (k1, v1) :: as, (k2, v2) :: bs =>
    if hk : k1 = k2 then
      match Json.decEq v1 v2 with
      | isTrue h1 =>
        match Json.decEqMembers as bs with
        | isTrue h2 => isTrue (by rw [hk, h1, h2])
        | isFalse h2 => isFalse (fun hh => h2 (by injection hh))
      | isFalse h1 =>
        isFalse (fun hh => by
          injection hh with hpair htail
          injection hpair with hkk hvv
          exact h1 hvv)
    else
      isFalse (fun hh => by
        injection hh with hpair htail
        injection hpair with hkk hvv
        exact hk hkk)

end

instance : DecidableEq Json := Json.decEq

/-- Whitespace skipping of the Python JSON scanner: space, tab, newline,
carriage return. -/
def skipWs : List Char → List Char
  | c :: cs => if c = ' ' ∨ c = '\t' ∨ c = '\n' ∨ c = '\r' then skipWs cs else c :: cs
  | [] => []

/-- Longest prefix of decimal digits, and the rest. -/
def spanDigits : List Char → List Char × List Char
  | c :: cs =>
    if c.isDigit then
      let p := spanDigits cs
      (c :: p.1, p.2)
    else ([], c :: cs)
  | [] => ([], [])

/-- Integer part of a JSON number: a single 0, or a nonzero digit followed by
digits (leading zeros are rejected, as in the Python json module). -/
def parseIntPart : List Char → Option (List Char × List Char)
  | '0' :: cs => some (['0'], cs)
  | c :: cs =>
    if c.isDigit then
      let p := spanDigits cs
      some (c :: p.1, p.2)
    else none
  | [] => none

/-- A JSON number literal (sign, integer part, optional fraction, optional
exponent), returned as its text. -/
def parseNumber (cs0 : List Char) : Option (String × List Char) :=
  let sp : List Char × List Char :=
    match cs0 with
    | '-' :: r => (['-'], r)
    | _ => ([], cs0)
  match parseIntPart sp.2 with
  | none => none
  | some (ip, cs2) =>
    let fp : Option (List Char × List Char) :=
      match cs2 with
      | '.' :: r =>
        let p := spanDigits r
        if p.1.isEmpty then none else some ('.' :: p.1, p.2)
      | _ => some ([], cs2)
    match fp with
    | none => none
    | some (fracs, cs3) =>
      let ep : Option (List Char × List Char) :=
        match cs3 with
        | c :: r =>
          if c = 'e' ∨ c = 'E' then
            let sr : List Char × List Char :=
              match r with
              | s :: r2 => if s = '+' ∨ s = '-' then ([s], r2) else ([], s :: r2)
              | [] => ([], [])
            let p := spanDigits sr.2
            if p.1.isEmpty then none else some (c :: (sr.1 ++ p.1), p.2)
          else some ([], cs3)
        | [] => some ([], cs3)
      match ep with
      | none => none
      | some (exps, cs4) =>
        some (String.mk (sp.1 ++ ip ++ fracs ++ exps), cs4)

/-- Value of a hexadecimal digit. -/
def hexDigitVal (c : Char) : Option Nat :=
  if c.isDigit then some (c.toNat - 48)
  else if 'a' ≤ c ∧ c ≤ 'f' then some (c.toNat - 87)
  else if 'A' ≤ c ∧ c ≤ 'F' then some (c.toNat - 70)
  else none

/-- Four hex digits, as in a JSON \u escape. -/
def parseHex4 : List Char → Option (Nat × List Char)
  | a :: b :: c :: d :: rest =>
    match hexDigitVal a, hexDigitVal b, hexDigitVal c, hexDigitVal d with
    | some va, some vb, some vc, some vd => some (va * 4096 + vb * 256 + vc * 16 + vd, rest)
    | _, _, _, _ => none
  | _ => none

/-- Body of a JSON string literal after the opening quote: decoded characters
and the rest after the closing quote. Escapes follow the json module
(including surrogate pairs; a lone surrogate, which Lean characters cannot
hold, decodes to the null character). Unescaped control characters are
rejected (strict mode). -/
def parseStringBody : Nat → List Char → Option (List Char × List Char)
  | 0, _ => none
  | _ + 1, [] => none
  | f + 1, c :: cs =>
    if c = '"' then some ([], cs)
    else if c = '\\' then
      match cs with
      | [] => none
      | e :: cs2 =>
        let dec : Option (List Char × List Char) :=
          if e = '"' then some (['"'], cs2)
          else if e = '\\' then some (['\\'], cs2)
          else if e = '/' then some (['/'], cs2)
          else if e = 'b' then some ([Char.ofNat 8], cs2)
          else if e = 'f' then some ([Char.ofNat 12], cs2)
          else if e = 'n' then some (['\n'], cs2)
          else if e = 'r' then some (['\r'], cs2)
          else if e = 't' then some (['\t'], cs2)
          else if e = 'u' then
            match parseHex4 cs2 with
            | none => none
            | some (h1, cs3) =>
              if 55296 ≤ h1 ∧ h1 ≤ 56319 then
                match cs3 with
                | '\\' :: 'u' :: cs4 =>
                  match parseHex4 cs4 with
                  | some (h2, cs5) =>
                    if 56320 ≤ h2 ∧ h2 ≤ 57343 then
                      some ([Char.ofNat (65536 + (h1 - 55296) * 1024 + (h2 - 56320))], cs5)
                    else some ([Char.ofNat h1, Char.ofNat h2], cs5)
                  | none => some ([Char.ofNat h1], cs3)
                | _ => some ([Char.ofNat h1], cs3)
              else some ([Char.ofNat h1], cs3)
          else none
        match dec with
        | none => none
        | some (chars, rest) =>
          match parseStringBody f rest with
          | some (s, r) => some (chars ++ s, r)
          | none => none
    else if c.toNat < 32 then none
    else
      match parseStringBody f cs with
      | some (s, r) => some (c :: s, r)
      | none => none

/-- Insert a key into an association list with the Python dict semantics:
an existing key keeps its position and takes the new value, a new key goes
to the end. -/
def insertReplace : List (String × Json) → String → Json → List (String × Json)
  | [], k, v => [(k, v)]
  | (k0, v0) :: rest, k, v =>
    if k0 = k then (k0, v) :: rest else (k0, v0) :: insertReplace rest k v

/-- Fold a parsed member list into a dict, resolving duplicate keys the way
the Python dict comprehension does (last value wins, first position kept). -/
def objOfPairs (pairs : List (String × Json)) : List (String × Json) :=
  pairs.foldl (fun acc kv => insertReplace acc kv.1 kv.2) []

mutual

/-- One JSON value starting at the head of the input (no leading whitespace),
and the rest of the input, including the NaN and Infinity extensions the
Python json module accepts by default. The fuel argument bounds the
recursion depth; the entry point passes more fuel than any input of that
length can consume. -/
def parseVal : Nat → List Char → Option (Json × List Char)
  | 0, _ => none
  | _ + 1, [] => none
  | f + 1, c :: rest =>
    if c = '"' then
      match parseStringBody (rest.length + 1) rest with
      | some (s, r) => some (Json.str (String.mk s), r)
      | none => none
    else if c = '[' then
      let cs1 := skipWs rest
      match cs1 with
      | ']' :: r => some (Json.arr [], r)
      | _ =>
        match parseArrLoop f cs1 with
        | some (vs, r) => some (Json.arr vs, r)
        | none => none
    else if c = '{' then
      let cs1 := skipWs rest
      match cs1 with
      | '}' :: r => some (Json.obj [], r)
      | _ =>
        match parseObjLoop f cs1 with
        | some (ms, r) => some (Json.obj (objOfPairs ms), r)
        | none => none
    else if c = 't' then
      match rest with
      | 'r' :: 'u' :: 'e' :: r => some (Json.bool true, r)
      | _ => none
    else if c = 'f' then
      match rest with
      | 'a' :: 'l' :: 's' :: 'e' :: r => some (Json.bool false, r)
      | _ => none
    else if c = 'n' then
      match rest with
      | 'u' :: 'l' :: 'l' :: r => some (Json.null, r)
      | _ => none
    else if c = 'N' then
      match rest with
      | 'a' :: 'N' :: r => some (Json.num "NaN", r)
      | _ => none
    else if c = 'I' then
      match rest with
      | 'n' :: 'f' :: 'i' :: 'n' :: 'i' :: 't' :: 'y' :: r => some (Json.num "Infinity", r)
      | _ => none
    else if c = '-' then
      match rest with
      | 'I' :: 'n' :: 'f' :: 'i' :: 'n' :: 'i' :: 't' :: 'y' :: r =>
        some (Json.num "-Infinity", r)
      | _ =>
        match parseNumber (c :: rest) with
        | some (lex, r) => some (Json.num lex, r)
        | none => none
    else
      match parseNumber (c :: rest) with
      | some (lex, r) => some (Json.num lex, r)
      | none => none

/-- Comma-separated array elements up to the closing bracket. -/
def parseArrLoop : Nat → List Char → Option (List Json × List Char)
  | 0, _ => none
  | f + 1, cs =>
    match parseVal f cs with
    | none => none
    | some (v, r1) =>
      match skipWs r1 with
      | ',' :: r2 =>
        match parseArrLoop f (skipWs r2) with
        | some (vs, r) => some (v :: vs, r)
        | none => none
      | ']' :: r2 => some ([v], r2)
      | _ => none

/-- Comma-separated object members up to the closing brace. -/
def parseObjLoop : Nat → List Char → Option (List (String × Json) × List Char)
  | 0, _ => none
  | f + 1, cs =>
    match cs with
    | '"' :: r0 =>
      match parseStringBody (r0.length + 1) r0 with
      | none => none
      | some (key, r1) =>
        match skipWs r1 with
        | ':' :: r2 =>
          match parseVal f (skipWs r2) with
          | none => none
          | some (v, r3) =>
            match skipWs r3 with
            | ',' :: r4 =>
              match parseObjLoop f (skipWs r4) with
              | some (ms, r) => some ((String.mk key, v) :: ms, r)
              | none => none
            | '}' :: r4 => some ([(String.mk key, v)], r4)
            | _ => none
        | _ => none
    | _ => none

end

/-- The Python json.loads: one JSON document with optional surrounding
whitespace, nothing after it. Returns none exactly when json.loads raises
JSONDecodeError. The fuel 3 * length + 9 exceeds what any input of this
length can consume (each recursion level consumes input). -/
def Json.loads (s : String) : Option Json :=
  match parseVal (3 * s.length + 9) (skipWs s.data) with
  | some (j, rest) => if skipWs rest = [] then some j else none
  | none => none

/-- Hexadecimal digit character (lowercase, as the json module emits). -/
def hexDigitChar (n : Nat) : Char :=
  if n < 10 then Char.ofNat (48 + n) else Char.ofNat (87 + n)

/-- Four hex digits of a code unit. -/
def hex4 (n : Nat) : List Char :=
  [hexDigitChar (n / 4096 % 16), hexDigitChar (n / 256 % 16),
   hexDigitChar (n / 16 % 16), hexDigitChar (n % 16)]

/-- One character of a JSON string as json.dumps emits it with the default
ensure ascii: named escapes for the common controls, u-escapes for other
controls and for everything beyond ASCII (surrogate pairs past the BMP). -/
def escapeJsonChar (c : Char) : List Char :=
  if c = '"' then ['\\', '"']
  else if c = '\\' then ['\\', '\\']
  else if c = '\n' then ['\\', 'n']
  else if c = '\r' then ['\\', 'r']
  else if c = '\t' then ['\\', 't']
  else if c.toNat = 8 then ['\\', 'b']
  else if c.toNat = 12 then ['\\', 'f']
  else if c.toNat < 32 ∨ c.toNat > 126 then
    if c.toNat > 65535 then
      let v := c.toNat - 65536
      ('\\' :: 'u' :: hex4 (55296 + v / 1024)) ++ ('\\' :: 'u' :: hex4 (56320 + v % 1024))
    else '\\' :: 'u' :: hex4 c.toNat
  else [c]

/-- A JSON string literal for a text value. -/
def encodeJsonString (s : String) : String :=
  String.mk ('"' :: (s.data.map escapeJsonChar).flatten ++ ['"'])

/-- Indentation prefix at a nesting level, two spaces per level. -/
def indentStr (level : Nat) : String :=
  String.mk (List.replicate (2 * level) ' ')

mutual

/-- Serialisation as the Python json.dumps(x, indent=2) at a nesting level:
containers spread over lines, two extra spaces per level, members joined
by a comma and a newline, key and value separated by a colon and a space. -/
def Json.dumpsIndent2 : Nat → Json → String
  | _, .null => "null"
  | _, .bool true => "true"
  | _, .bool false => "false"
  | _, .num lexeme => lexeme
  | _, .str s => encodeJsonString s
  | _, .arr [] => "[]"
  | level, .arr (v :: vs) =>
    "[\n" ++ dumpsItems (level + 1) (v :: vs) ++ "\n" ++ indentStr level ++ "]"
  | _, .obj [] => "\x7b\x7d"
  | level, .obj (m :: ms) =>
    "\x7b\n" ++ dumpsMembers (level + 1) (m :: ms) ++ "\n" ++ indentStr level ++ "\x7d"

/-- Array items, each on its own indented line. -/
def dumpsItems (level : Nat) : List Json → String
  | [] => ""
  | [v] => indentStr level ++ Json.dumpsIndent2 level v
  | v :: w :: ws =>
    indentStr level ++ Json.dumpsIndent2 level v ++ ",\n" ++ dumpsItems level (w :: ws)

/-- Object members, each on its own indented line. -/
def dumpsMembers (level : Nat) : List (String × Json) → String
  | [] => ""
  | [(k, v)] => indentStr level ++ encodeJsonString k ++ ": " ++ Json.dumpsIndent2 level v
  | (k, v) :: m :: ms =>
    indentStr level ++ encodeJsonString k ++ ": " ++ Json.dumpsIndent2 level v ++ ",\n" ++
      dumpsMembers level (m :: ms)

end

/-- Whether a JSON number literal denotes zero: a digit appears and no
nonzero digit appears in the mantissa (the exponent cannot make a zero
mantissa nonzero; NaN and the infinities have no digit and are truthy, as
the Python floats are). -/
def numIsZero (lexeme : String) : Bool :=
  let mantissa := lexeme.data.takeWhile (fun c => !(c == 'e' || c == 'E'))
  mantissa.any (fun c => c.isDigit) && mantissa.all (fun c => !(c.isDigit && !(c == '0')))

/-- Python truthiness of a JSON-decoded value: None, False, zero, the empty
string, the empty list and the empty dict are falsy. -/
def Json.truthy : Json → Bool
  | .null => false
  | .bool b => b
  | .num lexeme => !(numIsZero lexeme)
  | .str s => !(s == "")
  | .arr l => !l.isEmpty
  | .obj ms => !ms.isEmpty

/-- Member lookup on a JSON object (none on other values; the handlers are
modelled on dict request bodies). A stored null is returned as such: the
callers below map it to the same behavior as Python None where it matters. -/
def jsonGet (j : Json) (key : String) : Option Json :=
  match j with
  | .obj ms => ms.lookup key
  | _ => none

/-- Whitespace as the Python str.strip sees it: space, tab, newline,
carriage return, vertical tab, form feed (the Unicode spaces Python also
strips play no role here). -/
def isPyWs (c : Char) : Bool :=
  c == ' ' || c == '\t' || c == '\n' || c == '\r' || c.toNat == 11 || c.toNat == 12

/-- The Python str.strip(): whitespace removed from both ends. -/
def pyStrip (s : String) : String :=
  String.mk (((s.data.dropWhile isPyWs).reverse.dropWhile isPyWs).reverse)

/-- Split a character list at every newline. -/
def splitNl : List Char → List (List Char)
  | [] => [[]]
  | c :: cs =>
    let rest := splitNl cs
    if c = '\n' then [] :: rest
    else
      match rest with
      | r :: rs => (c :: r) :: rs
      | [] => [[c]]

/-- The Python str.split with separator newline: the pieces between
newlines, empty pieces kept, the empty string giving one empty piece. -/
def pySplitNl (s : String) : List String :=
  (splitNl s.data).map String.mk

/-- Error detail of a failed model or transport call. -/
abbrev GenErr := String

deriving instance DecidableEq for Except

/-- The generative model as an oracle from the prompt text to the raw
response text; an error value is an exception raised by the client call
genai.GenerativeModel("gemini-2.0-flash").generate_content. -/
abbrev Gemini := String → Except GenErr String

/-- Prompt of predict_disease_from_text, the f-string of lines 31 to 39. -/
def predictPrompt (description : String) : String :=
  "\nYou are a medical expert. Predict the top 5 possible skin diseases based on this description:\n'"
    ++ description ++
    "'\nReturn JSON format:\n[\n    \x7b\"disease\": \"Disease Name\", \"score\": 0.8\x7d,\n    \x7b\"disease\": \"Another Disease\", \"score\": 0.6\x7d\n]\n    "

/-- Prompt of generate_followup_questions, the f-string of lines 47 to 52,
with the predictions serialised by json.dumps(predictions, indent=2). -/
def followupPrompt (predictions : Json) : String :=
  "\nGiven these possible skin diseases based on the text input:\n"
    ++ Json.dumpsIndent2 0 predictions ++
    "\nGenerate 3-5 follow-up medical questions to refine the final diagnosis.\nReturn ONLY plain text questions separated by new lines.\n    "

/-- Prompt of the final diagnosis in /api/final-diagnosis (lines 84 to 91). -/
def diagnosisPromptApi (predictions user_answers : Json) : String :=
  "\nBased on these AI predictions:\n" ++ Json.dumpsIndent2 0 predictions ++
    "\nAnd user responses:\n" ++ Json.dumpsIndent2 0 user_answers ++
    "\nDetermine the final skin disease.\nReturn ONLY the final disease name in plain text.\n    "

/-- Prompt of the final diagnosis in the /final_diagnosis page (lines 276 to
282); it differs from the API variant only in the line break before the
return instruction. -/
def diagnosisPromptPage (predictions user_answers : Json) : String :=
  "\nBased on these AI predictions:\n" ++ Json.dumpsIndent2 0 predictions ++
    "\nAnd user responses:\n" ++ Json.dumpsIndent2 0 user_answers ++
    "\nDetermine the final skin disease. Return ONLY the final disease name in plain text.\n    "

/-- Treatment-plan prompt shared by /api/final-diagnosis (lines 95 to 122)
and the /final_diagnosis page (lines 285 to 312); the two f-strings are
identical. -/
def treatmentPrompt (final_disease : String) : String :=
  "\nYou are a medical assistant. Provide a structured and easy-to-understand treatment plan for the following skin condition:\n\n**Disease:** "
    ++ final_disease ++
    "\n\nRespond using this exact format. Each section should have **2–3 short bullet points**. Keep the explanations **simple, practical, and relevant for a general audience**.\n\n**Diagnosis:** [Short explanation of the disease and how it's usually identified]\n\n**Symptoms:**\n• [Common symptom 1]\n• [Common symptom 2]\n• [Common symptom 3]\n\n**Causes:**\n• [Major cause or risk factor]\n• [Another common contributing factor]\n\n**Treatments (Ordered):**\n• Ayurvedic Solutions: [1–2 natural treatments with brief benefits]\n• Home Remedies: [1–2 things people can try at home for relief]\n• Non-Prescription Medications: [1–2 OTC products with when to use them]\n• Prescription Medications: [1–2 doctor-prescribed options and their purpose]\n\n**When to See a Doctor:**\n• [Early warning sign]\n• [Progression or worsening symptom]\n    "

/-- Prompt of the /treatment page (line 330). -/
def treatmentPagePrompt (final_disease : String) : String :=
  "Provide structured diagnosis and treatment for " ++ final_disease ++
    " in a bullet-point format."

/-- The fixed fallback substituted when a treatment-generation call fails
(lines 127 and 317). -/
def fallbackTreatment : String :=
  "⚠️ Unable to fetch treatment details. Please consult a dermatologist."

/-- Lines 30 to 44: build the prediction prompt, call the model, parse the
raw text as JSON; a JSONDecodeError is caught and an empty list returned,
any other failure propagates. -/
def predict_disease_from_text (gemini : Gemini) (description : String) :
    Except GenErr Json :=
  match gemini (predictPrompt description) with
  | .error e => .error e
  | .ok response =>
    match Json.loads response with
    | some j => .ok j
    | none => .ok (Json.arr [])

/-- Lines 46 to 55: build the follow-up prompt, call the model, strip the
whole response, split on newlines and drop blank-only lines. -/
def generate_followup_questions (gemini : Gemini) (predictions : Json) :
    Except GenErr (List String) :=
  match gemini (followupPrompt predictions) with
  | .error e => .error e
  | .ok response =>
    let questions := pySplitNl (pyStrip response)
    .ok (questions.filter (fun q => decide (pyStrip q ≠ "")))

/-- Line 81: data.get("predictions", and an empty-list default. A stored
null is returned as stored, matching dict.get. -/
def apiPredictions (data : Json) : Json :=
  match jsonGet data "predictions" with
  | none => Json.arr []
  | some v => v

/-- Line 82: data.get("user_answers", and an empty-dict default. -/
def apiUserAnswers (data : Json) : Json :=
  match jsonGet data "user_answers" with
  | none => Json.obj []
  | some v => v

/-- Lines 78 to 132, the /api/final-diagnosis handler: read predictions and
user answers from the body with defaults, run the diagnosis call (failure
propagates), then the treatment call (failure caught, fallback substituted),
and answer with both. -/
def final_diagnosis_api (gemini : Gemini) (data : Json) : Except GenErr Json :=
  match gemini (diagnosisPromptApi (apiPredictions data) (apiUserAnswers data)) with
  | .error e => .error e
  | .ok fdRaw =>
    let final_disease := pyStrip fdRaw
    let treatment_response :=
      match gemini (treatmentPrompt final_disease) with
      | .ok t => pyStrip t
      | .error _ => fallbackTreatment
    .ok (Json.obj [("final_disease", Json.str final_disease),
                   ("treatment", Json.str treatment_response)])

/-- HTTP method of a page request. -/
inductive Method where
  | get : Method
  | post : Method
  deriving DecidableEq, Repr

/-- The Flask session dict with the keys this flow writes; a missing key is
none. -/
structure Session where
  predictions : Option Json
  followup_questions : Option (List String)
  user_answers : Option (List (String × String))
  detection_mode : Option String
  final_disease : Option String
  deriving DecidableEq, Repr

/-- A session with no keys, as on a first visit. -/
def Session.empty : Session := ⟨none, none, none, none, none⟩

/-- What a page handler answers: a redirect to a named endpoint, or a
rendered template with the values passed to it. -/
inductive PageResult where
  | redirect (endpoint : String)
  | renderFollowup (questions : List String)
  | renderFinalDiagnosis (final_disease treatment detection_mode : String)
  | renderTreatment (final_disease treatment : String)
  deriving DecidableEq, Repr

/-- Lines 259 to 269, the /followup page: if followup_questions is missing
from the session or falsy (the empty list), redirect to index; on POST,
collect one answer per stored question from the form, defaulting to the
fixed string, store them and redirect to the diagnosis page; on GET render
the form. The form is a mapping from field name to submitted value. -/
def followup (method : Method) (form : String → Option String) (sess : Session) :
    PageResult × Session :=
  if sess.followup_questions = none ∨ sess.followup_questions = some [] then
    (.redirect "index", sess)
  else
    match method with
    | .post =>
      let qs := sess.followup_questions.getD []
      let user_answers := qs.map (fun q => (q, (form q).getD "No answer provided"))
      (.redirect "final_diagnosis_page", { sess with user_answers := some user_answers })
    | .get => (.renderFollowup (sess.followup_questions.getD []), sess)

/-- The session user_answers dict as the JSON value json.dumps sees at line
280. -/
def sessionAnswersJson (sess : Session) : Json :=
  Json.obj ((sess.user_answers.getD []).map (fun kv => (kv.1, Json.str kv.2)))

/-- Lines 271 to 325, the /final_diagnosis page: redirect to index unless
both predictions and user_answers are in the session; run the diagnosis
call (failure propagates), then the treatment call (failure caught,
fallback substituted), store the final disease and render. -/
def final_diagnosis_page (gemini : Gemini) (sess : Session) :
    Except GenErr (PageResult × Session) :=
  if sess.predictions = none ∨ sess.user_answers = none then
    .ok (.redirect "index", sess)
  else
    match gemini (diagnosisPromptPage (sess.predictions.getD Json.null)
        (sessionAnswersJson sess)) with
    | .error e => .error e
    | .ok fdRaw =>
      let final_disease := pyStrip fdRaw
      let treatment_response :=
        match gemini (treatmentPrompt final_disease) with
        | .ok t => pyStrip t
        | .error _ => fallbackTreatment
      .ok (.renderFinalDiagnosis final_disease treatment_response
             (sess.detection_mode.getD "Text Only"),
           { sess with final_disease := some final_disease })

/-- Lines 327 to 332, the /treatment page: the disease name defaults to
Unknown, the single model call has no exception handler, and the response
text is rendered as returned, without a strip. -/
def treatment (gemini : Gemini) (sess : Session) : Except GenErr PageResult :=
  let final_disease := sess.final_disease.getD "Unknown"
  match gemini (treatmentPagePrompt final_disease) with
  | .error e => .error e
  | .ok treatment_plan => .ok (.renderTreatment final_disease treatment_plan)

/-- Coordinates of one geocode result (the values under geometry.location,
kept as the JSON values; they only flow into request URLs). -/
structure LatLng where
  lat : Json
  lng : Json
  deriving DecidableEq, Repr

/-- The geocoding response: its status field as read by .get (none when the
key is missing) and the coordinates of each entry of results. -/
structure GeocodeResponse where
  status : Option String
  results : List LatLng
  deriving DecidableEq, Repr

/-- One nearby-search result, with the fields the handler reads; location is
place.get("geometry", and then .get("location", with an empty-dict default
at each step, already resolved. -/
structure Place where
  name : Option String
  place_id : Option String
  rating : Option Json
  location : Json
  deriving DecidableEq, Repr

/-- The fields the handler reads from a place-details response, defaults
already applied for the opening hours chain. -/
structure DetailsResult where
  formatted_address : Option String
  formatted_phone_number : Option String
  website : Option String
  weekday_text : List String
  deriving DecidableEq, Repr

/-- The external maps API as an environment: geocoding keyed by the address
text, nearby search keyed by the category keyword (coordinates and radius
are constant within one request), details keyed by the place id (a missing
id is rendered into the URL as the text None, hence the Option key). -/
structure MapsEnv where
  geocode : String → GeocodeResponse
  nearby : String → List Place
  details : Option String → DetailsResult

/-- A clinic record as assembled at lines 176 to 186. -/
structure Clinic where
  category : String
  name : Option String
  place_id : Option String
  address : Option String
  phone : Option String
  website : Option String
  rating : Option Json
  location : Json
  hours : List String
  deriving DecidableEq, Repr

/-- The fixed category-to-keyword table of lines 152 to 156, in insertion
order. -/
def categories : List (String × String) :=
  [("NGO", "NGO hospital"), ("Government", " skin government hospital"),
   ("Private", "skin private hospital")]

/-- The fixed priority list of line 189. -/
def sorted_order : List String := ["NGO", "Government", "Private"]

/-- The sort key of line 190: position in the priority list, 999 for a
category not in it. -/
def clinicSortKey (c : Clinic) : Nat :=
  if c.category ∈ sorted_order then sorted_order.indexOf c.category else 999

/-- The clinics.sort call of line 190: a stable sort by the key. A stable
key sort is unique as a function of lists, so the structural insertion sort
models the Python list.sort exactly. -/
def sortClinics (clinics : List Clinic) : List Clinic :=
  clinics.insertionSort (fun a b => clinicSortKey a ≤ clinicSortKey b)

/-- One clinic record from a nearby-search result and its details lookup. -/
def buildClinic (category : String) (place : Place) (d : DetailsResult) : Clinic :=
  { category := category, name := place.name, place_id := place.place_id,
    address := d.formatted_address, phone := d.formatted_phone_number,
    website := d.website, rating := place.rating, location := place.location,
    hours := d.weekday_text }

/-- All clinics of one category: one details call per nearby result. -/
def categoryClinics (env : MapsEnv) (cat keyword : String) : List Clinic :=
  (env.nearby keyword).map (fun p => buildClinic cat p (env.details p.place_id))

/-- Outcome of the /api/find_clinics handler: the sorted clinic list, a
client error response, or an uncaught Python exception (rendered by Flask
as a generic 500). -/
inductive ClinicsResult where
  | ok (clinics : List Clinic)
  | clientError (status : Nat) (body : Json)
  | fault (msg : String)
  deriving DecidableEq, Repr

/-- The handler outcome together with how many nearby-search and details
requests it performed. -/
structure ClinicsOutcome where
  result : ClinicsResult
  nearbyCalls : Nat
  detailsCalls : Nat
  deriving DecidableEq, Repr

/-- The search-and-merge part of find_clinics (lines 152 to 192): one
nearby-search per category, one details call per returned place, then the
category sort. -/
def clinicsSearch (env : MapsEnv) : ClinicsOutcome :=
  let clinics := (categories.map (fun ck => categoryClinics env ck.1 ck.2)).flatten
  ⟨.ok (sortClinics clinics), categories.length,
   (categories.map (fun ck => (env.nearby ck.2).length)).sum⟩

/-- Lines 134 to 192, the /api/find_clinics handler. data.get("location")
yields Python None both for a missing key and a stored null. A string
location is geocoded: a status other than OK is a 400 with the fixed error
body, issued before any search call; empty results under an OK status raise
an IndexError at the [0] access. Any non-dict, non-string location (None
included) raises AttributeError at user_location.get. The range field
(range?: number in the interface) is read with default 20 and scaled to
meters before any branch, but only shapes request URLs, so it does not
appear in the outcome; an out-of-interface range value that the scaling
multiplication rejects (null or a dict) would raise TypeError before the
behavior modelled here and is outside this model. -/
def find_clinics (env : MapsEnv) (data : Json) : ClinicsOutcome :=
  let user_location := match jsonGet data "location" with
    | none => Json.null
    | some v => v
  match user_location with
  | .str s =>
    let geocode_data := env.geocode s
    if geocode_data.status ≠ some "OK" then
      ⟨.clientError 400 (Json.obj [("error", Json.str "Unable to geocode location")]), 0, 0⟩
    else
      match geocode_data.results with
      | [] => ⟨.fault "IndexError: geocode results empty", 0, 0⟩
      | _ :: _ => clinicsSearch env
  | .obj _ => clinicsSearch env
  | _ => ⟨.fault "AttributeError: NoneType object has no attribute get", 0, 0⟩

/-- One emit of the Socket.IO layer: event name, payload, and the session
ids it is delivered to. -/
structure SocketEmit where
  event : String
  payload : Json
  targets : List String
  deriving DecidableEq, Repr

/-- Python truthiness of a dict.get result: absent means falsy. -/
def pyTruthyOpt : Option Json → Bool
  | none => false
  | some j => j.truthy

/-- Lines 231 to 238, the signal event handler: with a truthy room and
truthy signalData, relay the payload to the members of the room other than
the sender (skip_sid excludes the sender); otherwise a private error to the
sender. Room membership is the rooms map (filled by join events, which are
outside the claims). -/
def on_signal (rooms : Json → List String) (sender : String) (data : Json) :
    List SocketEmit :=
  let room := jsonGet data "room"
  let signalData := jsonGet data "signalData"
  if pyTruthyOpt room && pyTruthyOpt signalData then
    [⟨"signal", Json.obj [("signalData", signalData.getD Json.null)],
      (rooms (room.getD Json.null)).filter (fun m => decide (m ≠ sender))⟩]
  else
    [⟨"error", Json.obj [("message", Json.str "Missing room or signalData")], [sender]⟩]

/-- Whether a JSON value has the shape of one prediction entry: an object
whose disease member is a string and whose score member is a number (the
shape the prompt requests). -/
def isPrediction : Json → Bool
  | .obj ms =>
    (match ms.lookup "disease" with
     | some (.str _) => true
     | _ => false)
    &&
    (match ms.lookup "score" with
     | some (.num _) => true
     | _ => false)
  | _ => false

/-- A details response with every optional field absent, for concrete
environments in the witnesses. -/
def noDetails : DetailsResult := ⟨none, none, none, []⟩

/-- A maps environment whose geocoder answers ZERO_RESULTS for every
address. -/
def envZeroResults : MapsEnv :=
  ⟨(fun _ => ⟨some "ZERO_RESULTS", []⟩), (fun _ => []), (fun _ => noDetails)⟩

/-- A nearby-search result with the given name, for concrete environments. -/
def placeNamed (n : String) : Place :=
  ⟨some n, some (n ++ "_id"), none, Json.obj []⟩

/-- A maps environment that geocodes every address and answers one place per
category keyword. -/
def envOnePerCategory : MapsEnv :=
  ⟨(fun _ => ⟨some "OK", [⟨Json.num "28", Json.num "77"⟩]⟩),
   (fun k =>
     if k = "NGO hospital" then [placeNamed "n1"]
     else if k = " skin government hospital" then [placeNamed "g1"]
     else [placeNamed "p1"]),
   (fun _ => noDetails)⟩

/-- A room registry where room r1 has members A and B, for the relay
scenarios. -/
def roomsR1 : Json → List String :=
  fun r => if r = Json.str "r1" then ["A", "B"] else []

/-- A signal payload that carries the room name, here the empty string, and
a truthy signalData. -/
def signalDataEmptyRoom : Json :=
  Json.obj [("room", Json.str ""), ("signalData", Json.obj [("sdp", Json.str "x")])]

/-- An oracle that answers the diagnosis prompts (which start with the text
Based on these AI predictions) and fails every other call, to drive the
treatment fallback paths in the witnesses. -/
def okDiagnosisElseFail : Gemini := fun p =>
  match p.data with
  | _ :: 'B' :: _ => .ok " Eczema "
  | _ => .error "down"

/-- A signal payload with room r1 and a truthy signalData, the scenario of
the spec. -/
def signalDataR1 : Json :=
  Json.obj [("room", Json.str "r1"), ("signalData", Json.obj [("sdp", Json.str "x")])]

/-- A session that has passed the description and follow-up steps, for the
diagnosis-page witnesses. -/
def sessionWithAnswers : Session :=
  { Session.empty with predictions := some (Json.arr []), user_answers := some [("Q1", "yes")] }

/-- Looking a key up in the association list built by mapping each key to a
value of it finds that value, for any key of the list. -/
theorem lookup_map_pair (f : String → String) (qs : List String) (q : String)
    (hq : q ∈ qs) :
    (qs.map (fun x => (x, f x))).lookup q = some (f q) := by
  induction qs with
  | nil => cases hq
  | cons x xs ih =>
    by_cases hqx : q = x
    · subst hqx
      simp [List.lookup]
    · rcases List.mem_cons.mp hq with rfl | hmem
      · exact absurd rfl hqx
      · simp only [List.map_cons, List.lookup]
        rw [show (q == x) = false from by simp [hqx]]
        exact ih hmem

/-- C5: on any request to the follow-up page, GET or POST, a session without
followup_questions or with an empty list there is answered by a redirect to
the index endpoint with the session unchanged, so the form is not rendered
and no form field or session write happens. -/
theorem followup_guard_redirects (method : Method) (form : String → Option String)
    (sess : Session)
    (h : sess.followup_questions = none ∨ sess.followup_questions = some []) :
    followup method form sess = (.redirect "index", sess) := by
  unfold followup
  rw [if_pos h]

/-- Witness for C5: a fresh session reaching /followup by GET is redirected
to index unchanged, and so is a POST. -/
theorem followup_guard_redirects_witness :
    followup .get (fun _ => none) Session.empty = (.redirect "index", Session.empty)
    ∧ followup .post (fun _ => some "yes") Session.empty = (.redirect "index", Session.empty) :=
  ⟨followup_guard_redirects .get (fun _ => none) Session.empty (Or.inl rfl),
   followup_guard_redirects .post (fun _ => some "yes") Session.empty (Or.inl rfl)⟩

/-- C7: a POST of the follow-up form with questions in the session stores
user_answers whose entries are exactly the stored questions in order, each
mapped to the submitted value for that question, or to the fixed default
when the form omits it, and redirects to the diagnosis page. -/
theorem followup_post_answers (form : String → Option String) (sess : Session)
    (qs : List String) (hq : sess.followup_questions = some qs) (hne : qs ≠ []) :
    followup .post form sess =
      (.redirect "final_diagnosis_page",
       { sess with user_answers := some (qs.map (fun q => (q, (form q).getD "No answer provided"))) })
    ∧ (qs.map (fun q => (q, (form q).getD "No answer provided"))).map Prod.fst = qs
    ∧ ∀ q ∈ qs,
        (qs.map (fun q => (q, (form q).getD "No answer provided"))).lookup q =
          some ((form q).getD "No answer provided") := by
  have hguard : ¬(sess.followup_questions = none ∨ sess.followup_questions = some []) := by
    rintro (hnone | hnil)
    · rw [hq] at hnone
      exact Option.noConfusion hnone
    · rw [hq] at hnil
      exact hne (Option.some.inj hnil)
  refine ⟨?_, ?_, ?_⟩
  · unfold followup
    rw [if_neg hguard]
    simp [hq]
  · simp [Function.comp_def]
  · intro q hmem
    exact lookup_map_pair (fun q => (form q).getD "No answer provided") qs q hmem

/-- Witness for C7: two stored questions, one answered in the form, the
other defaulted. -/
theorem followup_post_answers_witness :
    followup .post (fun q => if q = "Q1" then some "yes" else none)
        { Session.empty with followup_questions := some ["Q1", "Q2"] } =
      (.redirect "final_diagnosis_page",
       { Session.empty with
           followup_questions := some ["Q1", "Q2"],
           user_answers := some [("Q1", "yes"), ("Q2", "No answer provided")] })
    ∧ ([("Q1", "yes"), ("Q2", "No answer provided")].map Prod.fst = ["Q1", "Q2"]) := by
  have h := followup_post_answers (fun q => if q = "Q1" then some "yes" else none)
    { Session.empty with followup_questions := some ["Q1", "Q2"] }
    ["Q1", "Q2"] rfl (by decide)
  exact ⟨h.1, by decide⟩

/-- C10: the /treatment page reads the disease from the session with the
default Unknown, makes one model call with no exception handling (a failure
propagates as the fault it raised) and, on success, renders the model text
verbatim, without a strip. -/
theorem treatment_page_behavior (gemini : Gemini) (sess : Session) :
    (sess.final_disease = none →
      ∀ t, gemini (treatmentPagePrompt "Unknown") = .ok t →
        treatment gemini sess = .ok (.renderTreatment "Unknown" t))
    ∧ (∀ e, gemini (treatmentPagePrompt (sess.final_disease.getD "Unknown")) = .error e →
        treatment gemini sess = .error e)
    ∧ (∀ t, gemini (treatmentPagePrompt (sess.final_disease.getD "Unknown")) = .ok t →
        treatment gemini sess = .ok (.renderTreatment (sess.final_disease.getD "Unknown") t)) := by
  refine ⟨?_, ?_, ?_⟩
  · intro hnone t ht
    simp only [treatment, hnone, Option.getD_none]
    rw [ht]
  · intro e he
    simp only [treatment]
    rw [he]
  · intro t ht
    simp only [treatment]
    rw [ht]

/-- Witness for C10: with no stored disease the page uses Unknown and keeps
the leading and trailing whitespace of the model text; with a failing model
call the fault propagates. -/
theorem treatment_page_behavior_witness :
    treatment (fun _ => .ok "  plan \n") Session.empty =
      .ok (.renderTreatment "Unknown" "  plan \n")
    ∧ treatment (fun _ => .error "down") Session.empty = .error "down" :=
  ⟨(treatment_page_behavior (fun _ => .ok "  plan \n") Session.empty).1 rfl "  plan \n" rfl,
   (treatment_page_behavior (fun _ => .error "down") Session.empty).2.1 "down" rfl⟩

/-- C9: a find_clinics body without a location key, or with location null,
reaches the coordinates branch, where .get is called on Python None: the
request ends in an uncaught AttributeError (a generic server fault), not a
400 validation answer, and no maps request is made. -/
theorem find_clinics_missing_location_fault (env : MapsEnv) (data : Json)
    (h : jsonGet data "location" = none ∨ jsonGet data "location" = some Json.null) :
    find_clinics env data =
      ⟨.fault "AttributeError: NoneType object has no attribute get", 0, 0⟩
    ∧ ∀ status body nearbyCalls detailsCalls,
        find_clinics env data ≠ ⟨.clientError status body, nearbyCalls, detailsCalls⟩ := by
  have h1 : find_clinics env data =
      ⟨.fault "AttributeError: NoneType object has no attribute get", 0, 0⟩ := by
    rcases h with h | h
    · simp only [find_clinics, h]
    · simp only [find_clinics, h]
  refine ⟨h1, ?_⟩
  intro status body nearbyCalls detailsCalls
  rw [h1]
  intro hcontra
  have := congrArg ClinicsOutcome.result hcontra
  exact ClinicsResult.noConfusion this

/-- Witness for C9: the empty body and the explicit-null body both fault. -/
theorem find_clinics_missing_location_fault_witness :
    find_clinics envZeroResults (Json.obj []) =
      ⟨.fault "AttributeError: NoneType object has no attribute get", 0, 0⟩
    ∧ find_clinics envZeroResults (Json.obj [("location", Json.null)]) =
      ⟨.fault "AttributeError: NoneType object has no attribute get", 0, 0⟩ :=
  ⟨(find_clinics_missing_location_fault envZeroResults (Json.obj []) (Or.inl rfl)).1,
   (find_clinics_missing_location_fault envZeroResults (Json.obj [("location", Json.null)])
      (Or.inr rfl)).1⟩

/-- C3: a find_clinics request with a text location whose geocode response
has a status other than OK is answered 400 with the fixed error body, with
zero nearby-search and zero details requests. -/
theorem find_clinics_geocode_failure (env : MapsEnv) (data : Json) (s : String)
    (hloc : jsonGet data "location" = some (Json.str s))
    (hstatus : (env.geocode s).status ≠ some "OK") :
    find_clinics env data =
      ⟨.clientError 400 (Json.obj [("error", Json.str "Unable to geocode location")]), 0, 0⟩ := by
  simp only [find_clinics, hloc]
  rw [if_pos hstatus]

/-- Witness for C3: a mocked ZERO_RESULTS geocode response yields the 400
with zero search calls. -/
theorem find_clinics_geocode_failure_witness :
    find_clinics envZeroResults (Json.obj [("location", Json.str "InvalidPlaceXYZ")]) =
      ⟨.clientError 400 (Json.obj [("error", Json.str "Unable to geocode location")]), 0, 0⟩ :=
  find_clinics_geocode_failure envZeroResults
    (Json.obj [("location", Json.str "InvalidPlaceXYZ")]) "InvalidPlaceXYZ" rfl (by decide)

/-- The sort key takes one of the four values the priority list and the
fallback allow, each tied to its category. -/
theorem clinicSortKey_cases (a : Clinic) :
    (clinicSortKey a = 0 ∧ a.category = "NGO")
    ∨ (clinicSortKey a = 1 ∧ a.category = "Government")
    ∨ (clinicSortKey a = 2 ∧ a.category = "Private")
    ∨ (clinicSortKey a = 999 ∧ a.category ≠ "NGO" ∧ a.category ≠ "Government" ∧ a.category ≠ "Private") := by
  by_cases h0 : a.category = "NGO"
  · left
    refine ⟨?_, h0⟩
    unfold clinicSortKey
    rw [h0]
    decide
  · by_cases h1 : a.category = "Government"
    · right; left
      refine ⟨?_, h1⟩
      unfold clinicSortKey
      rw [h1]
      decide
    · by_cases h2 : a.category = "Private"
      · right; right; left
        refine ⟨?_, h2⟩
        unfold clinicSortKey
        rw [h2]
        decide
      · right; right; right
        refine ⟨?_, h0, h1, h2⟩
        have hmem : a.category ∉ sorted_order := by
          simp [sorted_order, h0, h1, h2]
        unfold clinicSortKey
        rw [if_neg hmem]

/-- The key comparison is total. -/
instance : IsTotal Clinic (fun a b => clinicSortKey a ≤ clinicSortKey b) :=
  ⟨fun a b => Nat.le_total (clinicSortKey a) (clinicSortKey b)⟩

/-- The key comparison is transitive. -/
instance : IsTrans Clinic (fun a b => clinicSortKey a ≤ clinicSortKey b) :=
  ⟨fun _ _ _ h1 h2 => Nat.le_trans h1 h2⟩

/-- The output of the category sort is ordered by the sort key. -/
theorem sortClinics_pairwise (l : List Clinic) :
    (sortClinics l).Pairwise (fun a b => clinicSortKey a ≤ clinicSortKey b) :=
  List.sorted_insertionSort _ l

/-- Key order between two clinics forces the category precedence the sort
is meant to give: nothing precedes an NGO entry but NGO, nothing precedes a
Government entry but NGO and Government, nothing precedes a Private entry
but the three recognised categories. -/
theorem clinicSortKey_le_category {a b : Clinic}
    (h : clinicSortKey a ≤ clinicSortKey b) :
    (b.category = "NGO" → a.category = "NGO")
    ∧ (b.category = "Government" → a.category = "NGO" ∨ a.category = "Government")
    ∧ (b.category = "Private" →
        a.category = "NGO" ∨ a.category = "Government" ∨ a.category = "Private") := by
  rcases clinicSortKey_cases a with ⟨ka, ca⟩ | ⟨ka, ca⟩ | ⟨ka, ca⟩ | ⟨ka, ca⟩ <;>
    rcases clinicSortKey_cases b with ⟨kb, cb⟩ | ⟨kb, cb⟩ | ⟨kb, cb⟩ | ⟨kb, cb⟩ <;>
    refine ⟨?_, ?_, ?_⟩ <;> intro hb <;>
    simp_all

/-- Every successful find_clinics answer is the category sort of the
clinics gathered per category. -/
theorem find_clinics_ok_shape (env : MapsEnv) (data : Json) (clinics : List Clinic)
    (n d : Nat) (h : find_clinics env data = ⟨.ok clinics, n, d⟩) :
    clinics = sortClinics ((categories.map (fun ck => categoryClinics env ck.1 ck.2)).flatten) := by
  have hsearch : ∀ (h2 : clinicsSearch env = ⟨.ok clinics, n, d⟩),
      clinics = sortClinics ((categories.map (fun ck => categoryClinics env ck.1 ck.2)).flatten) := by
    intro h2
    unfold clinicsSearch at h2
    have := congrArg ClinicsOutcome.result h2
    simp only at this
    exact (ClinicsResult.ok.inj this).symm
  rcases hg : jsonGet data "location" with _ | v
  · simp only [find_clinics, hg] at h
    exact absurd (congrArg ClinicsOutcome.result h) (by simp)
  · rcases v with _ | b | nl | s | a | ms
    · simp only [find_clinics, hg] at h
      exact absurd (congrArg ClinicsOutcome.result h) (by simp)
    · simp only [find_clinics, hg] at h
      exact absurd (congrArg ClinicsOutcome.result h) (by simp)
    · simp only [find_clinics, hg] at h
      exact absurd (congrArg ClinicsOutcome.result h) (by simp)
    · simp only [find_clinics, hg] at h
      split at h
      · exact absurd (congrArg ClinicsOutcome.result h) (by simp)
      · split at h
        · exact absurd (congrArg ClinicsOutcome.result h) (by simp)
        · exact hsearch h
    · simp only [find_clinics, hg] at h
      exact absurd (congrArg ClinicsOutcome.result h) (by simp)
    · simp only [find_clinics, hg] at h
      exact hsearch h

/-- C2: whatever the per-category search results, a successful find_clinics
answer lists the clinics so that every NGO entry precedes every Government
entry, every Government entry precedes every Private entry, and an entry of
any other category comes after all recognised ones (equivalently: nothing
precedes an NGO entry but NGO entries, and so on down the priority list). -/
theorem find_clinics_category_order (env : MapsEnv) (data : Json)
    (clinics : List Clinic) (n d : Nat)
    (h : find_clinics env data = ⟨.ok clinics, n, d⟩) :
    clinics.Pairwise (fun a b =>
      (b.category = "NGO" → a.category = "NGO")
      ∧ (b.category = "Government" → a.category = "NGO" ∨ a.category = "Government")
      ∧ (b.category = "Private" →
          a.category = "NGO" ∨ a.category = "Government" ∨ a.category = "Private")) := by
  rw [find_clinics_ok_shape env data clinics n d h]
  exact (sortClinics_pairwise _).imp (fun hab => clinicSortKey_le_category hab)

/-- Witness for C2: an environment answering one place per category yields
a list with the three categories in priority order. -/
theorem find_clinics_category_order_witness :
    ([buildClinic "NGO" (placeNamed "n1") noDetails,
      buildClinic "Government" (placeNamed "g1") noDetails,
      buildClinic "Private" (placeNamed "p1") noDetails]).Pairwise (fun a b =>
      (b.category = "NGO" → a.category = "NGO")
      ∧ (b.category = "Government" → a.category = "NGO" ∨ a.category = "Government")
      ∧ (b.category = "Private" →
          a.category = "NGO" ∨ a.category = "Government" ∨ a.category = "Private")) :=
  find_clinics_category_order envOnePerCategory (Json.obj [("location", Json.str "Delhi")])
    [buildClinic "NGO" (placeNamed "n1") noDetails,
     buildClinic "Government" (placeNamed "g1") noDetails,
     buildClinic "Private" (placeNamed "p1") noDetails] 3 3 (by decide)

/-- Counterexample to C1 as stated: the model may answer with valid JSON
that is not a list of at most five disease/score objects, and the function
returns that value unchanged; here a six-number list comes back as six
entries, and the empty-list branch does not apply since the response parses. -/
theorem predict_shape_counterexample :
    ¬ ((∃ l, predict_disease_from_text (fun _ => .ok "[1, 2, 3, 4, 5, 6]") "itchy rash" =
          .ok (Json.arr l) ∧ l.length ≤ 5 ∧ l.all isPrediction = true)
       ∨ (Json.loads "[1, 2, 3, 4, 5, 6]" = none
          ∧ predict_disease_from_text (fun _ => .ok "[1, 2, 3, 4, 5, 6]") "itchy rash" =
              .ok (Json.arr []))) := by
  rintro (⟨l, hl, hlen, _⟩ | ⟨hp, _⟩)
  · have hl2 : (Except.ok (Json.arr [Json.num "1", Json.num "2", Json.num "3",
        Json.num "4", Json.num "5", Json.num "6"]) : Except GenErr Json) = .ok (Json.arr l) := hl
    have hlist : ([Json.num "1", Json.num "2", Json.num "3",
        Json.num "4", Json.num "5", Json.num "6"] : List Json) = l :=
      Json.arr.inj (Except.ok.inj hl2)
    rw [← hlist] at hlen
    exact absurd hlen (by decide)
  · exact absurd hp (by decide)

/-- C1 amended: predict_disease_from_text returns whatever JSON value the
response parses to, unvalidated (the 0 to 5 disease/score entries are only
requested by the prompt), and the empty list when the response is not valid
JSON; the parse failure is silent, no error reaches the caller. -/
theorem predict_returns_parsed_json (gemini : Gemini) (description response : String)
    (hresp : gemini (predictPrompt description) = .ok response) :
    (∀ j, Json.loads response = some j →
        predict_disease_from_text gemini description = .ok j)
    ∧ (Json.loads response = none →
        predict_disease_from_text gemini description = .ok (Json.arr [])) := by
  constructor
  · intro j hj
    simp only [predict_disease_from_text, hresp, hj]
  · intro hj
    simp only [predict_disease_from_text, hresp, hj]

/-- Witness for the amended C1: a malformed response yields the empty list
silently, a well-formed one is returned as parsed. -/
theorem predict_returns_parsed_json_witness :
    predict_disease_from_text (fun _ => .ok "not json") "desc" = .ok (Json.arr [])
    ∧ predict_disease_from_text (fun _ => .ok "[\"a\"]") "desc" = .ok (Json.arr [Json.str "a"]) :=
  ⟨(predict_returns_parsed_json (fun _ => .ok "not json") "desc" "not json" rfl).2 (by decide),
   (predict_returns_parsed_json (fun _ => .ok "[\"a\"]") "desc" "[\"a\"]" rfl).1
     (Json.arr [Json.str "a"]) (by decide)⟩

/-- Counterexample to C6 as stated: the function strips the whole response
before splitting, so for the response built of a space, Q1 and a space the
returned entry is the trimmed Q1, not the single newline-split line of the
response (which, not being blank-only, would survive the blank filter
unchanged). -/
theorem followup_lines_counterexample :
    generate_followup_questions (fun _ => .ok " Q1 ") (Json.arr [])
      ≠ .ok ((pySplitNl " Q1 ").filter (fun q => decide (pyStrip q ≠ "")))
    ∧ generate_followup_questions (fun _ => .ok " Q1 ") (Json.arr []) = .ok ["Q1"]
    ∧ (pySplitNl " Q1 ").filter (fun q => decide (pyStrip q ≠ "")) = [" Q1 "] :=
  ⟨by decide, by decide, by decide⟩

/-- C6 amended: the returned questions are the newline-split lines of the
stripped response (whole-response whitespace removed first) with blank-only
lines dropped, order kept; in particular no returned entry is blank, and
the response of Q1, a blank line and Q2 gives exactly Q1 and Q2. -/
theorem followup_questions_lines (gemini : Gemini) (predictions : Json) (response : String)
    (hresp : gemini (followupPrompt predictions) = .ok response) :
    generate_followup_questions gemini predictions =
      .ok ((pySplitNl (pyStrip response)).filter (fun q => decide (pyStrip q ≠ "")))
    ∧ (∀ l, generate_followup_questions gemini predictions = .ok l →
        ∀ q ∈ l, pyStrip q ≠ "")
    ∧ generate_followup_questions (fun _ => .ok "Q1\n\nQ2\n") predictions = .ok ["Q1", "Q2"] := by
  have h1 : generate_followup_questions gemini predictions =
      .ok ((pySplitNl (pyStrip response)).filter (fun q => decide (pyStrip q ≠ ""))) := by
    simp only [generate_followup_questions, hresp]
  refine ⟨h1, ?_, rfl⟩
  intro l hl q hq
  have hleq : l = (pySplitNl (pyStrip response)).filter (fun q => decide (pyStrip q ≠ "")) :=
    (Except.ok.inj (h1.symm.trans hl)).symm
  rw [hleq] at hq
  exact of_decide_eq_true (List.mem_filter.mp hq).2

/-- Witness for the amended C6: interior whitespace of a line survives, the
blank line between Q1 and Q2 is dropped. -/
theorem followup_questions_lines_witness :
    generate_followup_questions (fun _ => .ok " A \nB\n\n") (Json.arr []) = .ok ["A ", "B"]
    ∧ generate_followup_questions (fun _ => .ok "Q1\n\nQ2\n") (Json.arr []) = .ok ["Q1", "Q2"] :=
  ⟨((followup_questions_lines (fun _ => .ok " A \nB\n\n") (Json.arr []) " A \nB\n\n" rfl).1).trans
     (by decide),
   (followup_questions_lines (fun _ => .ok "Q1\n\nQ2\n") (Json.arr []) "Q1\n\nQ2\n" rfl).2.2⟩

/-- Counterexample to C8 as stated: a signal event that carries both a room
(here the empty string) and a truthy signalData is not relayed at all: the
handler tests Python truthiness, not presence, so the sender gets a private
error and no signal event is emitted to anyone. -/
theorem on_signal_empty_room_counterexample :
    jsonGet signalDataEmptyRoom "room" = some (Json.str "")
    ∧ jsonGet signalDataEmptyRoom "signalData" = some (Json.obj [("sdp", Json.str "x")])
    ∧ on_signal roomsR1 "A" signalDataEmptyRoom =
        [⟨"error", Json.obj [("message", Json.str "Missing room or signalData")], ["A"]⟩]
    ∧ ∀ e ∈ on_signal roomsR1 "A" signalDataEmptyRoom, e.event ≠ "signal" :=
  ⟨by decide, by decide, by decide, by decide⟩

/-- C8 amended: with a truthy room and truthy signalData the relay emits one
signal event carrying the signalData to exactly the room members other than
the sender (the sender is excluded, every other member included); when
either field is missing or falsy, one error event goes to the sender alone
and nothing is broadcast. -/
theorem on_signal_relay (rooms : Json → List String) (sender : String) (data : Json) :
    (pyTruthyOpt (jsonGet data "room") = true →
      pyTruthyOpt (jsonGet data "signalData") = true →
      on_signal rooms sender data =
        [⟨"signal", Json.obj [("signalData", (jsonGet data "signalData").getD Json.null)],
          (rooms ((jsonGet data "room").getD Json.null)).filter (fun m => decide (m ≠ sender))⟩]
      ∧ sender ∉ (rooms ((jsonGet data "room").getD Json.null)).filter (fun m => decide (m ≠ sender))
      ∧ ∀ m ∈ rooms ((jsonGet data "room").getD Json.null), m ≠ sender →
          m ∈ (rooms ((jsonGet data "room").getD Json.null)).filter (fun m => decide (m ≠ sender)))
    ∧ ((pyTruthyOpt (jsonGet data "room") = false
        ∨ pyTruthyOpt (jsonGet data "signalData") = false) →
      on_signal rooms sender data =
        [⟨"error", Json.obj [("message", Json.str "Missing room or signalData")], [sender]⟩]) := by
  constructor
  · intro h1 h2
    refine ⟨?_, ?_, ?_⟩
    · simp only [on_signal, h1, h2]
      rfl
    · simp [List.mem_filter]
    · intro m hm hne
      simp [List.mem_filter, hm, hne]
  · intro h
    rcases h with h | h
    · simp [on_signal, h]
    · simp [on_signal, h]

/-- Witness for the amended C8: in room r1 with members A and B, a signal
from A reaches B and only B; an empty payload draws a private error to A. -/
theorem on_signal_relay_witness :
    on_signal roomsR1 "A" signalDataR1 =
      [⟨"signal", Json.obj [("signalData", Json.obj [("sdp", Json.str "x")])], ["B"]⟩]
    ∧ on_signal roomsR1 "A" (Json.obj []) =
      [⟨"error", Json.obj [("message", Json.str "Missing room or signalData")], ["A"]⟩] :=
  ⟨(((on_signal_relay roomsR1 "A" signalDataR1).1 (by decide) (by decide)).1).trans (by decide),
   (on_signal_relay roomsR1 "A" (Json.obj [])).2 (Or.inl (by decide))⟩

/-- C4: only the two treatment-generation call sites recover from an
upstream failure, by substituting the fixed fallback string; the model call
sites of the prediction, follow-up generation and final diagnosis (API and
page alike) have no handler, so a failure there propagates out of the
handler as a fault. -/
theorem model_call_failure_handling (gemini : Gemini) :
    (∀ data fdRaw e,
      gemini (diagnosisPromptApi (apiPredictions data) (apiUserAnswers data)) = .ok fdRaw →
      gemini (treatmentPrompt (pyStrip fdRaw)) = .error e →
      final_diagnosis_api gemini data =
        .ok (Json.obj [("final_disease", Json.str (pyStrip fdRaw)),
                       ("treatment", Json.str fallbackTreatment)]))
    ∧ (∀ sess fdRaw e,
      sess.predictions ≠ none → sess.user_answers ≠ none →
      gemini (diagnosisPromptPage (sess.predictions.getD Json.null) (sessionAnswersJson sess)) =
        .ok fdRaw →
      gemini (treatmentPrompt (pyStrip fdRaw)) = .error e →
      final_diagnosis_page gemini sess =
        .ok (.renderFinalDiagnosis (pyStrip fdRaw) fallbackTreatment
               (sess.detection_mode.getD "Text Only"),
             { sess with final_disease := some (pyStrip fdRaw) }))
    ∧ (∀ description e, gemini (predictPrompt description) = .error e →
        predict_disease_from_text gemini description = .error e)
    ∧ (∀ predictions e, gemini (followupPrompt predictions) = .error e →
        generate_followup_questions gemini predictions = .error e)
    ∧ (∀ data e,
      gemini (diagnosisPromptApi (apiPredictions data) (apiUserAnswers data)) = .error e →
      final_diagnosis_api gemini data = .error e)
    ∧ (∀ sess e,
      sess.predictions ≠ none → sess.user_answers ≠ none →
      gemini (diagnosisPromptPage (sess.predictions.getD Json.null) (sessionAnswersJson sess)) =
        .error e →
      final_diagnosis_page gemini sess = .error e) := by
  refine ⟨?_, ?_, ?_, ?_, ?_, ?_⟩
  · intro data fdRaw e h1 h2
    simp only [final_diagnosis_api, h1, h2]
  · intro sess fdRaw e hp hu h1 h2
    have hguard : ¬(sess.predictions = none ∨ sess.user_answers = none) := by
      rintro (h | h)
      exacts [hp h, hu h]
    simp only [final_diagnosis_page]
    rw [if_neg hguard]
    simp only [h1, h2]
  · intro description e h
    simp only [predict_disease_from_text, h]
  · intro predictions e h
    simp only [generate_followup_questions, h]
  · intro data e h
    simp only [final_diagnosis_api, h]
  · intro sess e hp hu h
    have hguard : ¬(sess.predictions = none ∨ sess.user_answers = none) := by
      rintro (hh | hh)
      exacts [hp hh, hu hh]
    simp only [final_diagnosis_page]
    rw [if_neg hguard]
    simp only [h]

/-- Witness for C4: one oracle that succeeds on the diagnosis prompts and
fails elsewhere exercises the two fallback sites; a failing oracle leaves
the other four sites returning the fault itself. -/
theorem model_call_failure_handling_witness :
    final_diagnosis_api okDiagnosisElseFail (Json.obj []) =
      .ok (Json.obj [("final_disease", Json.str "Eczema"),
                     ("treatment", Json.str fallbackTreatment)])
    ∧ final_diagnosis_page okDiagnosisElseFail sessionWithAnswers =
      .ok (.renderFinalDiagnosis "Eczema" fallbackTreatment "Text Only",
           { sessionWithAnswers with final_disease := some "Eczema" })
    ∧ predict_disease_from_text (fun _ => .error "down") "desc" = .error "down"
    ∧ generate_followup_questions (fun _ => .error "down") (Json.arr []) = .error "down"
    ∧ final_diagnosis_api (fun _ => .error "down") (Json.obj []) = .error "down"
    ∧ final_diagnosis_page (fun _ => .error "down") sessionWithAnswers = .error "down" :=
  ⟨(model_call_failure_handling okDiagnosisElseFail).1 (Json.obj []) " Eczema " "down"
     (by decide) (by decide),
   (model_call_failure_handling okDiagnosisElseFail).2.1 sessionWithAnswers " Eczema " "down"
     (by decide) (by decide) (by decide) (by decide),
   (model_call_failure_handling (fun _ => .error "down")).2.2.1 "desc" "down" rfl,
   (model_call_failure_handling (fun _ => .error "down")).2.2.2.1 (Json.arr []) "down" rfl,
   (model_call_failure_handling (fun _ => .error "down")).2.2.2.2.1 (Json.obj []) "down" rfl,
   (model_call_failure_handling (fun _ => .error "down")).2.2.2.2.2 sessionWithAnswers "down"
     (by decide) (by decide) rfl⟩
